import Mathlib

/-!
Verification development for the VCET AI chatbot repository.

This file shallowly embeds the client-side request/response orchestration
layer of the repository (the page script and service classes in
static/js/services/api.js and static/js/services/storage.js, and the
serverless query function in netlify/functions/suggestions.js) and proves
properties of the embedded definitions.

Conventions used throughout:
* JavaScript numbers that are used as counters, millisecond durations or
  HTTP status codes are modelled as Nat.
* A value that JavaScript may leave null/undefined is an Option.
* Host primitives that the code merely calls (fetch, localStorage, JSON,
  Date.now, the Groq HTTP API) are modelled as explicit inputs: each call
  site receives the outcome the host would have produced as a parameter.
* Code that can throw is modelled with an explicit thrown/Except outcome;
  code that catches every exception is a total function.
-/

/-! ### Constants (api.js lines 42-47 and 1399-1402) -/

/-- api.js line 44: API_CONFIG.timeout = 60000 milliseconds. -/
def API_CONFIG_timeout : Nat := 60000

/-- api.js line 1400: MAX_CONSECUTIVE_FAILURES = 3. -/
def MAX_CONSECUTIVE_FAILURES : Nat := 3

/-- api.js line 1401: LOADING_WARNING_TIME = 5 * 60 * 1000 milliseconds. -/
def LOADING_WARNING_TIME : Nat := 5 * 60 * 1000

/-- api.js line 1402: LOADING_TIMEOUT_TIME = 30 * 60 * 1000 milliseconds. -/
def LOADING_TIMEOUT_TIME : Nat := 30 * 60 * 1000

/-! ### Rate-limit state (api.js lines 1392-1400, 2285-2321)

The page script keeps two module-level mutable variables that make up the
rate-limit state of the spec: isRateLimited (the spec's
RateLimitState.blocked) and consecutiveFailures. -/

/-- The mutable rate-limit state of the page script:
isRateLimited (line 1394) and consecutiveFailures (line 1395). -/
structure RateState where
  isRateLimited : Bool
  consecutiveFailures : Nat
deriving DecidableEq, Repr

/-- api.js lines 2285-2300, handleRateLimitExceeded: sets isRateLimited to
true (the remaining statements only touch the DOM). -/
def handleRateLimitExceeded (s : RateState) : RateState :=
  { s with isRateLimited := true }

/-- api.js lines 2308-2321, resetRateLimitState: sets isRateLimited to false
and consecutiveFailures to 0 (the remaining statements only touch the DOM). -/
def resetRateLimitState : RateState :=
  { isRateLimited := false, consecutiveFailures := 0 }

/-! ### The sendQuery failure-tracking step (api.js lines 1801-1849)

The page-level sendQuery builds headers, performs one fetch of the query
endpoint and then inspects the response.  Everything the host can hand
back to it is captured by FetchEvent: either the fetch (or the
response.json() call at line 1820) threw, or a response with a status code
and a parsed JSON body arrived. -/

/-- What the host hands back to one sendQuery invocation.
thrown: the fetch call itself or response.json() threw (network failure,
abort/timeout, unparseable body); isTimeout records whether the thrown
error was a timeout/abort.  response: an HTTP response arrived and its
body parsed; message is the body's message field, remaining is the body's
remaining_requests field. -/
inductive FetchEvent where
  | thrown (isTimeout : Bool)
  | response (status : Nat) (message : Option String) (remaining : Option Nat)
deriving DecidableEq, Repr

/-- response.ok of the Fetch API: status in the range 200-299. -/
def response_ok (status : Nat) : Bool :=
  decide (200 ≤ status ∧ status < 300)

/-- The host's String.prototype.trim: removes whitespace from both ends of
a string.  Modelled over the character list so every use is executable. -/
def jsTrim (s : String) : String :=
  String.mk
    (((s.data.dropWhile Char.isWhitespace).reverse.dropWhile
      Char.isWhitespace).reverse)

/-- The host's String.prototype.toLowerCase, modelled over the character
list so every use is executable. -/
def jsToLower (s : String) : String :=
  String.mk (s.data.map Char.toLower)

/-- api.js lines 1820-1845, the part of sendQuery after the fetch returns:
line 1823 checks status 429 and blocks; lines 1828-1834 count a non-ok
response as a consecutive failure and block at the threshold; line 1838
resets the counter on success.  A thrown error (line 1846-1848) is
re-thrown without touching the state.  The returned Bool is true when
sendQuery throws to its caller. -/
def sendQueryStep (s : RateState) (e : FetchEvent) : RateState × Bool :=
  match e with
  | .thrown _ => (s, true)
  | .response status _ _ =>
    if status = 429 then
      (handleRateLimitExceeded s, true)
    else if response_ok status = false then
      let s' := { s with consecutiveFailures := s.consecutiveFailures + 1 }
      (if MAX_CONSECUTIVE_FAILURES ≤ s'.consecutiveFailures then
        handleRateLimitExceeded s'
      else s', true)
    else
      ({ s with consecutiveFailures := 0 }, false)

/-- Folding sendQueryStep over a sequence of host outcomes: the rate-limit
state after a run of consecutive sendQuery calls. -/
def runQueries (s : RateState) (l : List FetchEvent) : RateState :=
  l.foldl (fun s e => (sendQueryStep s e).1) s

/-- A FetchEvent that makes the corresponding sendQuery call fail with an
HTTP error response (a non-2xx status actually received from the server). -/
def isErrorResponse : FetchEvent → Bool
  | .thrown _ => false
  | .response status _ _ => response_ok status = false

/-- A FetchEvent on which sendQuery fails (throws to its caller) and the
failure is not a timeout. -/
def isNonTimeoutFailure : FetchEvent → Bool
  | .thrown isTimeout => !isTimeout
  | .response status _ _ => response_ok status = false

/-! ### sendMessage's pre-network phase (api.js lines 1874-1908)

sendMessage trims the input box, silently returns on an empty message or
while a request is being processed, rejects locally (toast + settings
modal) when isRateLimited is set, and only otherwise reaches the
sendQuery call (its one network dispatch). -/

/-- How a user send attempt ends before any network activity. -/
inductive SendAttempt where
  /-- line 1877: empty-after-trim message or isProcessing, silent return. -/
  | ignored
  /-- lines 1880-1884: isRateLimited, toast shown, no network activity. -/
  | blockedLocally
  /-- the attempt goes on to call sendQuery(message) at line 1908. -/
  | dispatched (message : String)
deriving DecidableEq, Repr

/-- api.js lines 1874-1884: the guards of sendMessage that run before any
network call. -/
def sendMessagePreNetwork (input : String) (isProcessing : Bool)
    (s : RateState) : SendAttempt :=
  let message := jsTrim input
  if message = "" || isProcessing then .ignored
  else if s.isRateLimited then .blockedLocally
  else .dispatched message

/-- Whether a send attempt reaches the network (the sendQuery call). -/
def attemptMakesNetworkCall : SendAttempt → Bool
  | .dispatched _ => true
  | _ => false

/-! ### The network request sendQuery dispatches (api.js lines 1801-1818)

Between its entry and the fetch call at line 1814, sendQuery only builds
headers (adding the X-Groq-Api-Key header when a key is stored);
it performs no validation of the query text, so every invocation reaches
the fetch call, whatever the query. -/

/-- The fetch request issued by sendQuery at lines 1814-1818. -/
structure FetchRequest where
  endpoint : String
  hasApiKeyHeader : Bool
  bodyQuery : String
deriving DecidableEq, Repr

/-- JavaScript truthiness of a string-or-null value. -/
def jsTruthy : Option String → Bool
  | none => false
  | some s => s ≠ ""

/-- api.js lines 1801-1818: the request sendQuery builds and hands to
fetch.  There is no local-validation branch: this function is defined for
every query string and always produces the request. -/
def sendQueryRequest (savedApiKey : Option String) (query : String) :
    FetchRequest :=
  { endpoint := "/api/query"
    hasApiKeyHeader := jsTruthy savedApiKey
    bodyQuery := query }

/-- api.js lines 2082-2086, updateCharCount: whether the send button is
disabled, given the current input length.  The character count display
shows length/1000 but the only disabling condition is an empty input or a
request in flight. -/
def updateCharCount_sendBtnDisabled (length : Nat) (isProcessing : Bool) :
    Bool :=
  decide (length = 0) || isProcessing

/-! ### Helper lemmas about the rate-limit step -/

/-- One step never clears the isRateLimited flag. -/
theorem sendQueryStep_mono (s : RateState) (e : FetchEvent)
    (h : s.isRateLimited = true) :
    ((sendQueryStep s e).1).isRateLimited = true := by
  cases e with
  | thrown t => simpa [sendQueryStep]
  | response status msg rem =>
    simp only [sendQueryStep]
    split
    · simp [handleRateLimitExceeded]
    · split
      · split
        · simp [handleRateLimitExceeded]
        · simpa
      · simpa

/-- A run of steps never clears the isRateLimited flag. -/
theorem runQueries_mono (l : List FetchEvent) (s : RateState)
    (h : s.isRateLimited = true) :
    (runQueries s l).isRateLimited = true := by
  induction l generalizing s with
  | nil => simpa [runQueries]
  | cons e es ih =>
    simp only [runQueries, List.foldl_cons] at *
    exact ih _ (sendQueryStep_mono s e h)

/-- After a run of error-response failures, either the state is blocked or
the failure counter grew by the length of the run. -/
theorem runQueries_failures_count (l : List FetchEvent) (s : RateState)
    (hl : ∀ e ∈ l, isErrorResponse e = true) :
    (runQueries s l).isRateLimited = true ∨
      s.consecutiveFailures + l.length ≤
        (runQueries s l).consecutiveFailures := by
  induction l generalizing s with
  | nil => right; simp [runQueries]
  | cons e es ih =>
    have he : isErrorResponse e = true := hl e (List.mem_cons_self e es)
    have hes : ∀ x ∈ es, isErrorResponse x = true :=
      fun x hx => hl x (List.mem_cons_of_mem e hx)
    simp only [runQueries, List.foldl_cons] at *
    cases e with
    | thrown t => simp [isErrorResponse] at he
    | response status msg rem =>
      simp only [isErrorResponse, decide_eq_true_eq] at he
      by_cases h429 : status = 429
      · left
        have : ((sendQueryStep s (.response status msg rem)).1).isRateLimited
            = true := by
          simp [sendQueryStep, h429, handleRateLimitExceeded]
        exact runQueries_mono es _ this
      · have hstep : ((sendQueryStep s (.response status msg rem)).1).consecutiveFailures
            = s.consecutiveFailures + 1 := by
          simp only [sendQueryStep, if_neg h429, he, if_true]
          split <;> simp [handleRateLimitExceeded]
        rcases ih ((sendQueryStep s (.response status msg rem)).1) hes with hb | hc
        · left; exact hb
        · right
          rw [hstep] at hc
          simp only [List.length_cons]
          omega

/-- A run of at least MAX_CONSECUTIVE_FAILURES error-response failures
always ends blocked. -/
theorem runQueries_errorRun_blocked (l : List FetchEvent) (s : RateState)
    (hlen : MAX_CONSECUTIVE_FAILURES ≤ l.length)
    (hl : ∀ e ∈ l, isErrorResponse e = true) :
    (runQueries s l).isRateLimited = true := by
  rcases List.eq_nil_or_concat l with rfl | ⟨L, e, rfl⟩
  · simp [MAX_CONSECUTIVE_FAILURES] at hlen
  · have hL : ∀ x ∈ L, isErrorResponse x = true := fun x hx =>
      hl x (by simp [List.concat_eq_append, hx])
    have he : isErrorResponse e = true :=
      hl e (by simp [List.concat_eq_append])
    have hrun : runQueries s (L.concat e) = (sendQueryStep (runQueries s L) e).1 := by
      simp [runQueries, List.concat_eq_append, List.foldl_append]
    rw [hrun]
    rcases runQueries_failures_count L s hL with hb | hc
    · exact sendQueryStep_mono _ _ hb
    · cases e with
      | thrown t => simp [isErrorResponse] at he
      | response status msg rem =>
        simp only [isErrorResponse, decide_eq_true_eq] at he
        by_cases h429 : status = 429
        · simp [sendQueryStep, h429, handleRateLimitExceeded]
        · have hlen' : 2 ≤ L.length := by
            simp only [List.concat_eq_append, List.length_append,
              List.length_cons, List.length_nil, MAX_CONSECUTIVE_FAILURES] at hlen ⊢
            omega
          have hth : MAX_CONSECUTIVE_FAILURES ≤
              (runQueries s L).consecutiveFailures + 1 := by
            simp only [MAX_CONSECUTIVE_FAILURES] at *
            omega
          simp only [sendQueryStep, if_neg h429, he, if_true]
          rw [if_pos hth]
          simp [handleRateLimitExceeded]

/-- A blocked state makes sendMessage stop before any network call. -/
theorem blocked_attempt_no_network (input : String) (isProcessing : Bool)
    (s : RateState) (h : s.isRateLimited = true) :
    attemptMakesNetworkCall (sendMessagePreNetwork input isProcessing s) = false := by
  simp only [sendMessagePreNetwork]
  split
  · rfl
  · simp [h, attemptMakesNetworkCall]

/-- C1, counterexample to the claim as stated: three consecutive
non-timeout failures of sendQuery in which the failure is a thrown network
error (no HTTP response received) leave isRateLimited false, so the next
user send attempt still reaches the network.  Each of the three calls does
fail (second component true) and is not a timeout. -/
theorem C1_counterexample :
    (sendQueryStep ⟨false, 0⟩ (.thrown false)).2 = true ∧
    isNonTimeoutFailure (.thrown false) = true ∧
    (runQueries ⟨false, 0⟩
      [.thrown false, .thrown false, .thrown false]).isRateLimited = false ∧
    attemptMakesNetworkCall (sendMessagePreNetwork "hello" false
      (runQueries ⟨false, 0⟩
        [.thrown false, .thrown false, .thrown false])) = true := by
  decide

/-- C1 (amended): whenever isRateLimited is true, a user send attempt is
rejected locally, before any network call; and every run of at least 3
consecutive sendQuery failures that are failing HTTP responses (non-2xx
statuses actually received from the server, rather than thrown
network/timeout errors) sets isRateLimited to true, so the next send
attempt short-circuits without a network call. -/
theorem C1_blocked_and_threshold :
    (∀ (input : String) (isProcessing : Bool) (s : RateState),
      s.isRateLimited = true →
      attemptMakesNetworkCall (sendMessagePreNetwork input isProcessing s) = false) ∧
    (∀ (s : RateState) (l : List FetchEvent),
      MAX_CONSECUTIVE_FAILURES ≤ l.length →
      (∀ e ∈ l, isErrorResponse e = true) →
      (runQueries s l).isRateLimited = true ∧
      ∀ (input : String) (isProcessing : Bool),
        attemptMakesNetworkCall
          (sendMessagePreNetwork input isProcessing (runQueries s l)) = false) := by
  refine ⟨blocked_attempt_no_network, ?_⟩
  intro s l hlen hl
  have hb := runQueries_errorRun_blocked l s hlen hl
  exact ⟨hb, fun input isProcessing =>
    blocked_attempt_no_network input isProcessing _ hb⟩

/-- Witness for C1_blocked_and_threshold at concrete inputs: a blocked
state rejects the attempt locally, and three consecutive HTTP 500
responses block the state. -/
theorem C1_blocked_and_threshold_witness :
    attemptMakesNetworkCall
      (sendMessagePreNetwork "hello" false ⟨true, 0⟩) = false ∧
    (runQueries ⟨false, 0⟩
      [.response 500 none none, .response 500 none none,
       .response 500 none none]).isRateLimited = true := by
  refine ⟨C1_blocked_and_threshold.1 "hello" false ⟨true, 0⟩ rfl, ?_⟩
  exact (C1_blocked_and_threshold.2 ⟨false, 0⟩
    [.response 500 none none, .response 500 none none, .response 500 none none]
    (by decide) (by decide)).1

/-- The 1001-character query used against C2. -/
def longQuery : String := String.mk (List.replicate 1001 'a')

/-- C2, counterexample to the claim as stated: for a query of 1001
characters, sendQuery does not return a local ValidationError; it
dispatches the fetch request whose body carries the oversized query
unchanged (api.js lines 1801-1818 contain no validation branch). -/
theorem C2_counterexample :
    longQuery.length = 1001 ∧
    sendQueryRequest none longQuery =
      { endpoint := "/api/query", hasApiKeyHeader := false,
        bodyQuery := longQuery } := by
  constructor
  · show (String.mk (List.replicate 1001 'a')).length = 1001
    rw [show (String.mk (List.replicate 1001 'a')).length
      = (List.replicate 1001 'a').length from rfl, List.length_replicate]
  · rfl

/-- C2 (amended): sendQuery performs no local validation at all: every
call, whatever the query text (including texts longer than 1000
characters), dispatches a POST request to the query endpoint carrying the
text, and no ValidationError value exists in the code.  The only local
guard on the send path is sendMessage's silent return for inputs that are
empty after trimming, and the char-count UI disables sending only for
empty input, not for over-length input. -/
theorem C2_no_validation :
    (∀ (key : Option String) (q : String),
      sendQueryRequest key q =
        { endpoint := "/api/query", hasApiKeyHeader := jsTruthy key,
          bodyQuery := q }) ∧
    (∀ (input : String) (s : RateState), jsTrim input = "" →
      sendMessagePreNetwork input false s = .ignored) ∧
    (∀ (length : Nat) (isProcessing : Bool), 1000 < length →
      updateCharCount_sendBtnDisabled length isProcessing = isProcessing) := by
  refine ⟨fun key q => rfl, ?_, ?_⟩
  · intro input s h
    simp [sendMessagePreNetwork, h]
  · intro length isProcessing h
    have : length ≠ 0 := by omega
    simp [updateCharCount_sendBtnDisabled, this]

/-- Witness for C2_no_validation at concrete inputs. -/
theorem C2_no_validation_witness :
    sendQueryRequest (some "gsk_k") "hi" =
      { endpoint := "/api/query", hasApiKeyHeader := true, bodyQuery := "hi" } ∧
    sendMessagePreNetwork "   " false ⟨false, 0⟩ = .ignored ∧
    updateCharCount_sendBtnDisabled 1001 false = false := by
  refine ⟨?_, ?_, ?_⟩
  · have h := C2_no_validation.1 (some "gsk_k") "hi"
    simpa [jsTruthy] using h
  · exact C2_no_validation.2.1 "   " ⟨false, 0⟩ (by decide)
  · exact C2_no_validation.2.2 1001 false (by decide)

/-! ### The bootstrap sequencer (api.js lines 1568-1650)

startLoadingProcess performs one initial health check (step server), then
polls checkHealth every 2 seconds for the model step, with a ceiling of
maxAttempts = 60 attempts (line 1596) and, after each unsuccessful poll,
an elapsed-time check against LOADING_WARNING_TIME (display-only warning)
and LOADING_TIMEOUT_TIME (timeout popup and return).  checkHealth never
throws (api.js lines 1545-1562): a failed request surfaces as
ragInitialized being falsy, so a poll outcome is fully described by a
ragInitialized flag plus the elapsed wall-clock time the iteration
observes at line 1609. -/

/-- The environment of one poll iteration: what checkHealth reported and
what Date.now() - loadingStartTime evaluates to right after it. -/
structure PollStep where
  ragInitialized : Bool
  elapsed : Nat
deriving DecidableEq, Repr

/-- api.js line 1596: maxAttempts = 60. -/
def maxAttempts : Nat := 60

/-- How the polling while-loop of lines 1598-1621 ends. -/
inductive LoopExit where
  /-- line 1602-1604: a poll reported ready, break. -/
  | breakReady
  /-- line 1613-1616: elapsed reached LOADING_TIMEOUT_TIME, return. -/
  | timedOut
  /-- the loop condition attempts < maxAttempts became false. -/
  | ceiling
deriving DecidableEq, Repr

/-- api.js lines 1595-1621: the polling loop, run when the initial health
check reported the RAG model not yet initialized (so the loop condition
reduces to attempts < maxAttempts).  env k is what the (k+1)-st poll
observes; fuel is maxAttempts - attempts; the second component counts the
checkHealth calls made by the loop.  The warning threshold at line 1610
only toggles a DOM element and does not affect control flow. -/
def pollLoop (env : Nat → PollStep) : Nat → Nat → LoopExit × Nat
  | 0, polls => (.ceiling, polls)
  | fuel + 1, polls =>
    let step := env polls
    if step.ragInitialized then (.breakReady, polls + 1)
    else if LOADING_TIMEOUT_TIME ≤ step.elapsed then (.timedOut, polls + 1)
    else pollLoop env fuel (polls + 1)

/-- What checkHealth (api.js lines 1545-1562) returns: success is false
when the fetch threw, and ragInitialized is the backend's flag (falsy when
the check failed). -/
structure HealthResult where
  success : Bool
  ragInitialized : Bool
deriving DecidableEq, Repr

/-- The terminal outcome of one startLoadingProcess run. -/
inductive BootResult where
  /-- lines 1582-1585: initial health check failed, server step in error. -/
  | serverError
  /-- line 1613-1615: timeout popup shown and the function returned. -/
  | timedOut
  /-- lines 1623-1643: the model step is marked completed and the
  remaining synthetic steps run through to hiding the overlay. -/
  | completed
deriving DecidableEq, Repr

/-- api.js lines 1568-1650, startLoadingProcess: initial health check,
then the polling loop, then the synthetic vectorStore/ready steps.  The
second component is the number of polls (checkHealth calls) made by the
loop. -/
def startLoadingProcess (initial : HealthResult) (env : Nat → PollStep) :
    BootResult × Nat :=
  if initial.success = false then (.serverError, 0)
  else if initial.ragInitialized then (.completed, 0)
  else
    match pollLoop env maxAttempts 0 with
    | (.timedOut, n) => (.timedOut, n)
    | (.breakReady, n) => (.completed, n)
    | (.ceiling, n) => (.completed, n)

/-- The loop makes at most fuel polls beyond its starting count. -/
theorem pollLoop_polls_le (env : Nat → PollStep) (fuel polls : Nat) :
    (pollLoop env fuel polls).2 ≤ polls + fuel := by
  induction fuel generalizing polls with
  | zero => simp [pollLoop]
  | succ fuel ih =>
    simp only [pollLoop]
    split
    · simp
    · split
      · simp
      · have := ih (polls + 1)
        omega

/-- With a never-ready backend whose polls all observe elapsed times below
the hard timeout, the loop exhausts its fuel. -/
theorem pollLoop_ceiling (env : Nat → PollStep) (fuel polls : Nat)
    (hrag : ∀ k, (env k).ragInitialized = false)
    (helapsed : ∀ k, k < polls + fuel → (env k).elapsed < LOADING_TIMEOUT_TIME) :
    pollLoop env fuel polls = (.ceiling, polls + fuel) := by
  induction fuel generalizing polls with
  | zero => simp [pollLoop]
  | succ fuel ih =>
    have h1 : (env polls).ragInitialized = false := hrag polls
    have h2 : (env polls).elapsed < LOADING_TIMEOUT_TIME :=
      helapsed polls (by omega)
    simp only [pollLoop, h1, if_neg (by omega : ¬ LOADING_TIMEOUT_TIME ≤ (env polls).elapsed)]
    simp only [Bool.false_eq_true, if_false]
    have := ih (polls + 1) (fun k hk => helapsed k (by omega))
    rw [this]
    congr 1
    omega

/-- If the first poll whose observed elapsed time reaches the hard timeout
is within the fuel, the loop exits timedOut right after that poll. -/
theorem pollLoop_timedOut (env : Nat → PollStep) (fuel polls k : Nat)
    (hk : k < fuel)
    (hrag : ∀ j, (env j).ragInitialized = false)
    (hbefore : ∀ j, polls ≤ j → j < polls + k → (env j).elapsed < LOADING_TIMEOUT_TIME)
    (hat : LOADING_TIMEOUT_TIME ≤ (env (polls + k)).elapsed) :
    pollLoop env fuel polls = (.timedOut, polls + k + 1) := by
  induction k generalizing fuel polls with
  | zero =>
    cases fuel with
    | zero => omega
    | succ fuel =>
      have h1 : (env polls).ragInitialized = false := hrag polls
      simp only [pollLoop, h1, Bool.false_eq_true, if_false]
      rw [if_pos (by simpa using hat)]
  | succ k ih =>
    cases fuel with
    | zero => omega
    | succ fuel =>
      have h1 : (env polls).ragInitialized = false := hrag polls
      have h2 : (env polls).elapsed < LOADING_TIMEOUT_TIME :=
        hbefore polls (by omega) (by omega)
      simp only [pollLoop, h1, Bool.false_eq_true, if_false,
        if_neg (by omega : ¬ LOADING_TIMEOUT_TIME ≤ (env polls).elapsed)]
      have := ih fuel (polls + 1) (by omega)
        (fun j hj1 hj2 => hbefore j (by omega) (by omega))
        (by have : polls + 1 + k = polls + (k + 1) := by omega
            rw [this]; exact hat)
      rw [this]
      congr 1
      omega

/-- The prompt never-ready environment used against C3: every poll reports
not ready, and the observed elapsed time of the (k+1)-st poll iteration is
the ideal 2000 * (k+1) milliseconds (2-second sleeps, instant health
responses). -/
def promptNeverReadyEnv : Nat → PollStep :=
  fun k => { ragInitialized := false, elapsed := 2000 * (k + 1) }

/-- C3, counterexample to the claim as stated: against a backend that
never reports rag_initialized and answers each poll promptly, the
sequencer never transitions to TimedOut: it stops polling after the
60-attempt ceiling (about 2 minutes at the 2-second interval) and proceeds
to the completed path, marking the model step completed. -/
theorem C3_counterexample :
    startLoadingProcess { success := true, ragInitialized := false }
      promptNeverReadyEnv = (.completed, 60) ∧
    (startLoadingProcess { success := true, ragInitialized := false }
      promptNeverReadyEnv).1 ≠ .timedOut := by
  decide

/-- C3 (amended): against a backend that never reports rag_initialized,
the bootstrap sequencer polls the health endpoint at most 60 times (the
attempt ceiling of 2-second polls, about 2 minutes, not 900 polls over 30
minutes); it transitions to the terminal TimedOut state, at most once,
only when some poll iteration observes an elapsed time that has reached
the 30-minute hard timeout (which requires slow polls), and exits the
loop to the completed path after 60 polls otherwise. -/
theorem C3_poll_ceiling :
    ∀ (env : Nat → PollStep),
      (∀ k, (env k).ragInitialized = false) →
      (startLoadingProcess { success := true, ragInitialized := false } env).2
          ≤ maxAttempts ∧
      ((∀ k, k < maxAttempts → (env k).elapsed < LOADING_TIMEOUT_TIME) →
        startLoadingProcess { success := true, ragInitialized := false } env
          = (.completed, maxAttempts)) ∧
      (∀ k, k < maxAttempts →
        (∀ j, j < k → (env j).elapsed < LOADING_TIMEOUT_TIME) →
        LOADING_TIMEOUT_TIME ≤ (env k).elapsed →
        startLoadingProcess { success := true, ragInitialized := false } env
          = (.timedOut, k + 1)) := by
  intro env hrag
  refine ⟨?_, ?_, ?_⟩
  · have hb := pollLoop_polls_le env maxAttempts 0
    simp only [startLoadingProcess]
    rcases h : pollLoop env maxAttempts 0 with ⟨exit, n⟩
    rw [h] at hb
    cases exit <;> simpa using hb
  · intro hfast
    have h := pollLoop_ceiling env maxAttempts 0 hrag
      (fun k hk => hfast k (by omega))
    simp [startLoadingProcess, h]
  · intro k hk hbefore hat
    have h := pollLoop_timedOut env maxAttempts 0 k hk hrag
      (fun j hj1 hj2 => hbefore j (by omega)) (by simpa using hat)
    simp [startLoadingProcess, h]

/-- Witness for C3_poll_ceiling at concrete environments: an always-fast
never-ready backend reaches the ceiling and completes after 60 polls, and
a backend whose very first poll already observes the 30-minute mark times
out after 1 poll. -/
theorem C3_poll_ceiling_witness :
    startLoadingProcess { success := true, ragInitialized := false }
      (fun _ => { ragInitialized := false, elapsed := 0 }) = (.completed, 60) ∧
    startLoadingProcess { success := true, ragInitialized := false }
      (fun _ => { ragInitialized := false, elapsed := LOADING_TIMEOUT_TIME })
        = (.timedOut, 1) := by
  constructor
  · exact (C3_poll_ceiling (fun _ => { ragInitialized := false, elapsed := 0 })
      (fun _ => rfl)).2.1 (fun k _ => by decide)
  · exact (C3_poll_ceiling
      (fun _ => { ragInitialized := false, elapsed := LOADING_TIMEOUT_TIME })
      (fun _ => rfl)).2.2 0 (by decide) (fun j hj => by omega) (by decide)

/-! ### Saving a credential (api.js lines 2199-2232) -/

/-- JavaScript String.prototype.startsWith, modelled over character
lists so every use is executable. -/
def jsStartsWith (s p : String) : Bool :=
  s.data.take p.data.length == p.data

/-- The outcome of one saveApiKey invocation: the rate-limit state, the
stored credential and whether the save happened. -/
structure SaveKeyOutcome where
  rate : RateState
  storedKey : Option String
  saved : Bool
deriving DecidableEq, Repr

/-- api.js lines 2199-2232, saveApiKey: trims the input, rejects an empty
value or one that does not start with the gsk marker (both leave every
state untouched), then stores the key and calls resetRateLimitState; when
localStorage.setItem throws (setThrows), the catch block leaves the
rate-limit state untouched as well. -/
def saveApiKey (setThrows : Bool) (input : String) (storedKey : Option String)
    (rate : RateState) : SaveKeyOutcome :=
  let apiKey := jsTrim input
  if apiKey = "" then ⟨rate, storedKey, false⟩
  else if jsStartsWith apiKey "gsk_" = false then ⟨rate, storedKey, false⟩
  else if setThrows then ⟨rate, storedKey, false⟩
  else ⟨resetRateLimitState, some apiKey, true⟩

/-- C4: a successful sendQuery resets consecutiveFailures to 0 and leaves
isRateLimited exactly as it was (success never clears a blocked flag); no
sendQuery step ever clears isRateLimited; and the explicit credential-save
action, when it saves, is what resets the state to unblocked with a zero
counter, while a rejected or failed save leaves everything unchanged. -/
theorem C4_success_frame :
    (∀ (s : RateState) (status : Nat) (msg : Option String) (rem : Option Nat),
      response_ok status = true →
      (sendQueryStep s (.response status msg rem)).1
        = { isRateLimited := s.isRateLimited, consecutiveFailures := 0 }) ∧
    (∀ (s : RateState) (e : FetchEvent), s.isRateLimited = true →
      ((sendQueryStep s e).1).isRateLimited = true) ∧
    resetRateLimitState
      = { isRateLimited := false, consecutiveFailures := 0 } ∧
    (∀ (t : Bool) (input : String) (k : Option String) (r : RateState),
      (saveApiKey t input k r).saved = true →
      (saveApiKey t input k r).rate = resetRateLimitState) ∧
    (∀ (t : Bool) (input : String) (k : Option String) (r : RateState),
      (saveApiKey t input k r).saved = false →
      (saveApiKey t input k r).rate = r ∧
      (saveApiKey t input k r).storedKey = k) := by
  refine ⟨?_, sendQueryStep_mono, rfl, ?_, ?_⟩
  · intro s status msg rem h
    have h429 : ¬ status = 429 := by
      simp only [response_ok, decide_eq_true_eq] at h
      omega
    simp [sendQueryStep, h429, h]
  · intro t input k r h
    by_cases h1 : jsTrim input = ""
    · simp [saveApiKey, h1] at h
    · by_cases h2 : jsStartsWith (jsTrim input) "gsk_" = false
      · simp [saveApiKey, h1, h2] at h
      · by_cases h3 : t = true
        · simp [saveApiKey, h1, h2, h3] at h
        · simp [saveApiKey, h1, h2, h3]
  · intro t input k r h
    by_cases h1 : jsTrim input = ""
    · simp [saveApiKey, h1]
    · by_cases h2 : jsStartsWith (jsTrim input) "gsk_" = false
      · simp [saveApiKey, h1, h2]
      · by_cases h3 : t = true
        · simp [saveApiKey, h1, h2, h3]
        · simp [saveApiKey, h1, h2, h3] at h

/-- Witness for C4_success_frame at concrete inputs: a success response on
a blocked state with two failures zeroes the counter and keeps the block;
a valid credential save resets the state; an invalid one changes nothing. -/
theorem C4_success_frame_witness :
    (sendQueryStep ⟨true, 2⟩ (.response 200 none none)).1
      = { isRateLimited := true, consecutiveFailures := 0 } ∧
    ((sendQueryStep ⟨true, 0⟩ (.thrown false)).1).isRateLimited = true ∧
    (saveApiKey false "gsk_abc" none ⟨true, 2⟩).rate = resetRateLimitState ∧
    (saveApiKey false "bad" none ⟨true, 2⟩).rate = ⟨true, 2⟩ := by
  refine ⟨C4_success_frame.1 ⟨true, 2⟩ 200 none none (by decide),
    C4_success_frame.2.1 ⟨true, 0⟩ (.thrown false) rfl,
    C4_success_frame.2.2.2.1 false "gsk_abc" none ⟨true, 2⟩ (by decide),
    (C4_success_frame.2.2.2.2 false "bad" none ⟨true, 2⟩ (by decide)).1⟩

/-! ### Chat history persistence (api.js lines 1986-1991 and 2396-2402) -/

/-- One entry of the chatHistory array as pushed at api.js lines 1986-1991. -/
structure ChatMessage where
  content : String
  sender : String
  timestamp : String
  cached : Bool
  isError : Bool
deriving DecidableEq, Repr

/-- api.js lines 1986-1991: addMessage appends the new entry at the end of
chatHistory (the earlier statements only touch the DOM). -/
def addMessage (history : List ChatMessage) (m : ChatMessage) :
    List ChatMessage :=
  history ++ [m]

/-- Array.prototype.slice with the negative start index -n: the last n
elements (the whole array when it is shorter than n). -/
def jsSliceLast (n : Nat) (l : List α) : List α :=
  l.drop (l.length - n)

/-- api.js lines 2396-2402, saveChatHistory: the sequence persisted to
localStorage is chatHistory.slice(-50). -/
def saveChatHistory (chatHistory : List ChatMessage) : List ChatMessage :=
  jsSliceLast 50 chatHistory

/-- C5: the persisted history never exceeds 50 entries; it is a suffix of
the in-memory history, so the oldest entries are dropped first and the
insertion order of the retained entries is preserved; histories of at most
50 entries are persisted whole, and longer ones are cut to exactly 50. -/
theorem C5_history_cap :
    ∀ (h : List ChatMessage),
      (saveChatHistory h).length ≤ 50 ∧
      saveChatHistory h <:+ h ∧
      (h.length ≤ 50 → saveChatHistory h = h) ∧
      (50 ≤ h.length → (saveChatHistory h).length = 50) := by
  intro h
  refine ⟨?_, ?_, ?_, ?_⟩
  · simp only [saveChatHistory, jsSliceLast, List.length_drop]
    omega
  · exact List.drop_suffix _ _
  · intro hle
    have : h.length - 50 = 0 := by omega
    simp [saveChatHistory, jsSliceLast, this]
  · intro hge
    simp only [saveChatHistory, jsSliceLast, List.length_drop]
    omega

/-- Witness for C5_history_cap at a concrete 50-entry history: it is
persisted whole, and appending a 51st entry still persists exactly 50. -/
theorem C5_history_cap_witness :
    (saveChatHistory
      (List.replicate 50 ⟨"hi", "user", "t0", false, false⟩)).length ≤ 50 ∧
    saveChatHistory (List.replicate 50 ⟨"hi", "user", "t0", false, false⟩)
      = List.replicate 50 ⟨"hi", "user", "t0", false, false⟩ ∧
    (saveChatHistory (addMessage
      (List.replicate 50 ⟨"hi", "user", "t0", false, false⟩)
      ⟨"ok", "bot", "t1", false, false⟩)).length = 50 := by
  refine ⟨(C5_history_cap _).1, (C5_history_cap _).2.2.1 (by simp),
    (C5_history_cap _).2.2.2 ?_⟩
  simp [addMessage]

/-! ### The HTTP client's bounded wait (api.js lines 130-165) -/

/-- A parsed JSON response body, with the two fields the orchestration
layer reads: message (error path) and remaining_requests. -/
structure ParsedBody where
  message : Option String
  remaining_requests : Option Nat
deriving DecidableEq, Repr

/-- What the awaited fetch plus body parse inside ApiService.request
settles to: a response (body none when it does not parse as JSON), an
AbortError raised by the timeout timer, or another thrown network-level
error. -/
inductive FetchResult where
  | response (status : Nat) (body : Option ParsedBody)
  | abortError
  | otherError (msg : String)
deriving DecidableEq, Repr

/-- The error ApiService.request throws: a status (absent on plain
rethrown errors) and a message. -/
structure RequestError where
  status : Option Nat
  message : String
deriving DecidableEq, Repr

/-- api.js lines 136-164, the classification inside ApiService.request:
a 2xx response returns its parsed body (an unparseable 2xx body rethrows
the parse error — its host-provided message is abstracted to a constant);
a non-2xx response throws an error carrying the status and the body's
message when present (else the HTTP status text, line 147); an AbortError
becomes the Request timeout error with status 408 (lines 157-160); any
other error is rethrown unchanged. -/
def request (fr : FetchResult) : Except RequestError ParsedBody :=
  match fr with
  | .response status body =>
    if response_ok status = true then
      match body with
      | some b => .ok b
      | none => .error { status := none, message := "JSON parse error" }
    else
      let errorData := body.getD { message := none, remaining_requests := none }
      .error { status := some status,
               message := errorData.message.getD ("HTTP " ++ toString status) }
  | .abortError => .error { status := some 408, message := "Request timeout" }
  | .otherError msg => .error { status := none, message := msg }

/-- api.js lines 133-134: the AbortController timer schedules an abort at
API_CONFIG_timeout milliseconds, so a network operation that would settle
only at or after that bound is cancelled and the awaited outcome is an
AbortError instead. -/
def fetchWithAbortTimer (timeoutMs settleMs : Nat) (outcome : FetchResult) :
    FetchResult :=
  if timeoutMs ≤ settleMs then .abortError else outcome

/-- One full ApiService.request call against a network operation that
would settle at settleMs milliseconds with the given outcome. -/
def requestWithTimeout (settleMs : Nat) (outcome : FetchResult) :
    Except RequestError ParsedBody :=
  request (fetchWithAbortTimer API_CONFIG_timeout settleMs outcome)

/-- C6: the bound is 60 seconds; every call whose network operation would
settle only at or after the bound is cancelled by the abort signal and
yields the Request timeout error with status 408, whatever the operation
would have produced (so no partial result is ever returned); calls that
settle within the bound are classified normally. -/
theorem C6_timeout :
    API_CONFIG_timeout = 60000 ∧
    (∀ (settleMs : Nat) (outcome : FetchResult),
      API_CONFIG_timeout ≤ settleMs →
      requestWithTimeout settleMs outcome
        = .error { status := some 408, message := "Request timeout" }) ∧
    (∀ (settleMs : Nat) (outcome : FetchResult),
      settleMs < API_CONFIG_timeout →
      requestWithTimeout settleMs outcome = request outcome) := by
  refine ⟨rfl, ?_, ?_⟩
  · intro settleMs outcome h
    simp [requestWithTimeout, fetchWithAbortTimer, h, request]
  · intro settleMs outcome h
    simp [requestWithTimeout, fetchWithAbortTimer, Nat.not_le.mpr h]

/-- Witness for C6_timeout at concrete inputs: an operation that would
settle with a 200 response exactly at 60000 ms yields the 408 timeout
error, and one that settles at 0 ms is classified normally. -/
theorem C6_timeout_witness :
    requestWithTimeout 60000
      (.response 200 (some { message := none, remaining_requests := none }))
      = .error { status := some 408, message := "Request timeout" } ∧
    requestWithTimeout 0
      (.response 200 (some { message := none, remaining_requests := none }))
      = .ok { message := none, remaining_requests := none } := by
  constructor
  · exact C6_timeout.2.1 60000 _ (by decide)
  · rw [C6_timeout.2.2 0 _ (by decide)]
    rfl

/-! ### The serverless query function (netlify/functions/suggestions.js,
query handler, lines 106-337) -/

/-- The value found at the query field of the parsed request body. -/
inductive JsVal where
  | str (s : String)
  | nonString
deriving DecidableEq, Repr

/-- suggestions.js lines 180-183, getCacheKey: the query lowercased then
trimmed, under the query marker. -/
def getCacheKey (query : String) : String :=
  "query_" ++ jsTrim (jsToLower query)

/-- One entry of the in-memory response cache (lines 288-291). -/
structure CacheEntry where
  response : String
  timestamp : Nat
deriving DecidableEq, Repr

/-- The in-memory response cache, a JS Map in insertion order. -/
abbrev Cache := List (String × CacheEntry)

/-- suggestions.js line 116: CACHE_TTL, one hour in milliseconds. -/
def CACHE_TTL : Nat := 3600000

/-- Map.prototype.set: updates an existing key in place, else appends,
preserving insertion order. -/
def cacheSet (c : Cache) (k : String) (v : CacheEntry) : Cache :=
  if (c.lookup k).isSome then
    c.map (fun p => if p.1 = k then (k, v) else p)
  else c ++ [(k, v)]

/-- suggestions.js lines 293-297: after an insertion, when the map holds
more than 100 entries the first-inserted key is deleted. -/
def cacheCleanup (c : Cache) : Cache :=
  if 100 < c.length then c.drop 1 else c

/-- Whether the cache holds a fresh entry for a key: the branch condition
of suggestions.js line 252. -/
def cacheFresh (c : Cache) (k : String) (now : Nat) : Bool :=
  match c.lookup k with
  | some entry => now - entry.timestamp < CACHE_TTL
  | none => false

/-- What the callGroqAPI promise settles to (lines 124-173): a parsed 200
response whose first choice content may be absent, the 429 rejection, a
non-200 status failure, or a request/parse error. -/
inductive GroqOutcome where
  | ok (content : Option String)
  | rateLimited
  | apiFailure (status : Nat)
  | requestError (msg : String)
deriving DecidableEq, Repr

/-- The HTTP response the handler returns: its status code, whether the
body is the success shape, and the success body fields (response text,
cached flag, response time; the JS reports the time in seconds, modelled
here in milliseconds). -/
structure HandlerResponse where
  statusCode : Nat
  isSuccessBody : Bool
  response : Option String
  cached : Option Bool
  response_timeMs : Option Nat
deriving DecidableEq, Repr

/-- The full result of one handler invocation: the response, the cache
afterwards, and whether the Groq API was called. -/
structure HandlerRun where
  resp : HandlerResponse
  cache : Cache
  calledGroq : Bool
deriving DecidableEq, Repr

/-- suggestions.js line 223: the validation condition on body.query —
missing/falsy, not a string, or empty after trimming. -/
def queryInvalid : Option JsVal → Bool
  | none => true
  | some .nonString => true
  | some (.str s) => jsTrim s = ""

/-- The query string the handler works with after validation passed. -/
def eventQuery : Option JsVal → String
  | some (.str s) => s
  | _ => ""

/-- JavaScript a || b on string-or-absent values: absent and the empty
string are falsy (suggestions.js line 235). -/
def jsOrStr (a b : Option String) : Option String :=
  match a with
  | some s => if s = "" then b else some s
  | none => b

/-- JavaScript !x on a string-or-absent value (line 237). -/
def jsFalsyStr : Option String → Bool
  | none => true
  | some s => s = ""

/-- One parsed request event: the HTTP method, the query field of the
parsed body, and the x-groq-api-key header. -/
structure QueryEvent where
  httpMethod : String
  queryField : Option JsVal
  headerApiKey : Option String
deriving DecidableEq, Repr

/-- suggestions.js lines 266-335: the path taken on a cache miss (or stale
entry): call the Groq API, cache a success under the key with the
after-call clock, classify a 429 rejection as the 429 response and other
failures as 500. -/
def queryHandlerGroq (cache : Cache) (nowStart nowEnd : Nat)
    (cacheKey : String) (up : GroqOutcome) : HandlerRun :=
  match up with
  | .ok content =>
    let assistantMessage := content.getD "No response generated"
    let cache' := cacheCleanup (cacheSet cache cacheKey
      { response := assistantMessage, timestamp := nowEnd })
    { resp := { statusCode := 200, isSuccessBody := true,
                response := some assistantMessage, cached := some false,
                response_timeMs := some (nowEnd - nowStart) }
      cache := cache', calledGroq := true }
  | .rateLimited =>
    { resp := { statusCode := 429, isSuccessBody := false, response := none,
                cached := none, response_timeMs := none }
      cache := cache, calledGroq := true }
  | .apiFailure _ =>
    { resp := { statusCode := 500, isSuccessBody := false, response := none,
                cached := none, response_timeMs := none }
      cache := cache, calledGroq := true }
  | .requestError _ =>
    { resp := { statusCode := 500, isSuccessBody := false, response := none,
                cached := none, response_timeMs := none }
      cache := cache, calledGroq := true }

/-- suggestions.js lines 188-337, the query handler: OPTIONS preflight,
POST-only check, query validation (400), credential resolution from the
header with fallback to the environment (401 when both absent/empty),
cache lookup against the TTL, and the Groq path otherwise.  envApiKey is
process.env.GROQ_API_KEY; nowStart and nowEnd are the Date.now() readings
before and after the Groq call. -/
def queryHandler (envApiKey : Option String) (cache : Cache)
    (nowStart nowEnd : Nat) (ev : QueryEvent) (up : GroqOutcome) :
    HandlerRun :=
  if ev.httpMethod = "OPTIONS" then
    { resp := { statusCode := 200, isSuccessBody := false, response := none,
                cached := none, response_timeMs := none }
      cache := cache, calledGroq := false }
  else if ev.httpMethod ≠ "POST" then
    { resp := { statusCode := 405, isSuccessBody := false, response := none,
                cached := none, response_timeMs := none }
      cache := cache, calledGroq := false }
  else if queryInvalid ev.queryField = true then
    { resp := { statusCode := 400, isSuccessBody := false, response := none,
                cached := none, response_timeMs := none }
      cache := cache, calledGroq := false }
  else
    let apiKey := jsOrStr ev.headerApiKey envApiKey
    if jsFalsyStr apiKey = true then
      { resp := { statusCode := 401, isSuccessBody := false, response := none,
                  cached := none, response_timeMs := none }
        cache := cache, calledGroq := false }
    else
      let cacheKey := getCacheKey (eventQuery ev.queryField)
      match cache.lookup cacheKey with
      | some entry =>
        if nowStart - entry.timestamp < CACHE_TTL then
          { resp := { statusCode := 200, isSuccessBody := true,
                      response := some entry.response, cached := some true,
                      response_timeMs := some 0 }
            cache := cache, calledGroq := false }
        else queryHandlerGroq cache nowStart nowEnd cacheKey up
      | none => queryHandlerGroq cache nowStart nowEnd cacheKey up

/-- C7: on a POST to the query function, an invalid query field (missing,
non-string, or empty after trimming) yields status 400; a valid query
with no credential available from the header or the environment yields
status 401; and, on a cache miss, an upstream rate-limit rejection yields
status 429 — in each case without a success body and (for 400/401)
without calling the Groq API. -/
theorem C7_error_statuses :
    ∀ (envApiKey : Option String) (cache : Cache) (nowStart nowEnd : Nat)
      (ev : QueryEvent) (up : GroqOutcome),
      ev.httpMethod = "POST" →
      (queryInvalid ev.queryField = true →
        (queryHandler envApiKey cache nowStart nowEnd ev up).resp.statusCode = 400 ∧
        (queryHandler envApiKey cache nowStart nowEnd ev up).resp.isSuccessBody = false ∧
        (queryHandler envApiKey cache nowStart nowEnd ev up).calledGroq = false) ∧
      (queryInvalid ev.queryField = false →
        jsFalsyStr (jsOrStr ev.headerApiKey envApiKey) = true →
        (queryHandler envApiKey cache nowStart nowEnd ev up).resp.statusCode = 401 ∧
        (queryHandler envApiKey cache nowStart nowEnd ev up).resp.isSuccessBody = false ∧
        (queryHandler envApiKey cache nowStart nowEnd ev up).calledGroq = false) ∧
      (queryInvalid ev.queryField = false →
        jsFalsyStr (jsOrStr ev.headerApiKey envApiKey) = false →
        cacheFresh cache (getCacheKey (eventQuery ev.queryField)) nowStart = false →
        up = .rateLimited →
        (queryHandler envApiKey cache nowStart nowEnd ev up).resp.statusCode = 429 ∧
        (queryHandler envApiKey cache nowStart nowEnd ev up).resp.isSuccessBody = false) := by
  intro envApiKey cache nowStart nowEnd ev up hm
  obtain ⟨m, qf, hk⟩ := ev
  simp only at hm
  subst hm
  have hopt : ¬ (("POST" : String) = "OPTIONS") := by decide
  refine ⟨?_, ?_, ?_⟩
  · intro hq
    simp [queryHandler, hopt, hq]
  · intro hq hkey
    simp [queryHandler, hopt, hq, hkey]
  · intro hq hkey hfresh hup
    subst hup
    simp only [queryHandler, hopt, if_false, ite_not]
    simp only [queryInvalid] at hq ⊢
    simp only [hq, if_false, Bool.false_eq_true]
    simp only [jsFalsyStr] at hkey ⊢
    simp only [hkey, if_false, Bool.false_eq_true]
    rcases hl : List.lookup (getCacheKey (eventQuery qf)) cache with _ | entry
    · simp only [hl, queryHandlerGroq]
      exact ⟨rfl, rfl⟩
    · have hstale : ¬ (nowStart - entry.timestamp < CACHE_TTL) := by
        simp [cacheFresh, hl] at hfresh
        omega
      simp only [hl, queryHandlerGroq]
      rw [if_neg hstale]
      exact ⟨rfl, rfl⟩

/-- Witness for C7_error_statuses at concrete inputs: a missing query
field yields 400; a valid query with no credential anywhere yields 401;
and a valid, keyed, uncached query whose upstream call is rate limited
yields 429. -/
theorem C7_error_statuses_witness :
    (queryHandler none [] 0 0
      { httpMethod := "POST", queryField := none, headerApiKey := none }
      (.ok none)).resp.statusCode = 400 ∧
    (queryHandler none [] 0 0
      { httpMethod := "POST", queryField := some (.str "hi"),
        headerApiKey := none } (.ok none)).resp.statusCode = 401 ∧
    (queryHandler none [] 0 0
      { httpMethod := "POST", queryField := some (.str "hi"),
        headerApiKey := some "gsk_k" } .rateLimited).resp.statusCode = 429 := by
  refine ⟨?_, ?_, ?_⟩
  · exact ((C7_error_statuses none [] 0 0
      { httpMethod := "POST", queryField := none, headerApiKey := none }
      (.ok none) rfl).1 (by decide)).1
  · exact ((C7_error_statuses none [] 0 0
      { httpMethod := "POST", queryField := some (.str "hi"),
        headerApiKey := none } (.ok none) rfl).2.1 (by decide) (by decide)).1
  · exact ((C7_error_statuses none [] 0 0
      { httpMethod := "POST", queryField := some (.str "hi"),
        headerApiKey := some "gsk_k" } .rateLimited rfl).2.2
      (by decide) (by decide) (by decide) rfl).1

/-- C10: two queries that agree after lowercasing and trimming map to the
same cache key; and while the cache holds an entry under that key younger
than the 1-hour TTL, a valid keyed POST carrying the other query returns
that cached response with cached true and response time 0, without
calling the Groq API and without touching the cache. -/
theorem C10_cache_normalization :
    (∀ (q1 q2 : String), jsTrim (jsToLower q1) = jsTrim (jsToLower q2) →
      getCacheKey q1 = getCacheKey q2) ∧
    (∀ (envApiKey : Option String) (cache : Cache) (nowStart nowEnd : Nat)
       (q1 q2 : String) (headerKey : Option String) (entry : CacheEntry)
       (up : GroqOutcome),
      jsTrim (jsToLower q1) = jsTrim (jsToLower q2) →
      queryInvalid (some (.str q2)) = false →
      jsFalsyStr (jsOrStr headerKey envApiKey) = false →
      cache.lookup (getCacheKey q1) = some entry →
      nowStart - entry.timestamp < CACHE_TTL →
      queryHandler envApiKey cache nowStart nowEnd
        { httpMethod := "POST", queryField := some (.str q2),
          headerApiKey := headerKey } up
        = { resp := { statusCode := 200, isSuccessBody := true,
                      response := some entry.response, cached := some true,
                      response_timeMs := some 0 },
            cache := cache, calledGroq := false }) := by
  have hkeyeq : ∀ (q1 q2 : String),
      jsTrim (jsToLower q1) = jsTrim (jsToLower q2) →
      getCacheKey q1 = getCacheKey q2 := by
    intro q1 q2 h
    simp [getCacheKey, h]
  refine ⟨hkeyeq, ?_⟩
  intro envApiKey cache nowStart nowEnd q1 q2 headerKey entry up hn hq hkey hl hfr
  have hl2 : List.lookup (getCacheKey (eventQuery (some (.str q2)))) cache
      = some entry := by
    rw [show eventQuery (some (.str q2)) = q2 from rfl, ← hkeyeq q1 q2 hn]
    exact hl
  have hopt : ¬ (("POST" : String) = "OPTIONS") := by decide
  simp only [queryHandler, hopt, if_false, ite_not]
  simp only [queryInvalid] at hq ⊢
  simp only [hq, if_false, Bool.false_eq_true]
  simp only [jsFalsyStr] at hkey ⊢
  simp only [hkey, if_false, Bool.false_eq_true]
  simp only [hl2]
  rw [if_pos hfr]
  simp

/-- Witness for C10_cache_normalization at concrete inputs: the key of a
query with capitals and surrounding space coincides with the key of its
normal form, and a fresh cached entry stored under the first is served,
marked cached with zero response time, on a request carrying the second. -/
theorem C10_cache_normalization_witness :
    getCacheKey "Hi VCET " = getCacheKey "hi vcet" ∧
    queryHandler none
      [(getCacheKey "Hi VCET ", { response := "cached answer", timestamp := 100 })]
      200 300
      { httpMethod := "POST", queryField := some (.str "hi vcet"),
        headerApiKey := some "gsk_k" } (.ok none)
      = { resp := { statusCode := 200, isSuccessBody := true,
                    response := some "cached answer", cached := some true,
                    response_timeMs := some 0 },
          cache := [(getCacheKey "Hi VCET ",
            { response := "cached answer", timestamp := 100 })],
          calledGroq := false } := by
  refine ⟨C10_cache_normalization.1 "Hi VCET " "hi vcet" (by decide), ?_⟩
  exact C10_cache_normalization.2 none
    [(getCacheKey "Hi VCET ", { response := "cached answer", timestamp := 100 })]
    200 300 "Hi VCET " "hi vcet" (some "gsk_k")
    { response := "cached answer", timestamp := 100 } (.ok none)
    (by decide) (by decide) (by decide) (by decide) (by decide)

/-! ### The storage service (static/js/services/storage.js)

localStorage is a host primitive: it is modelled as a partial map from
keys to stored strings, and the possibility that an individual host
operation throws (quota, privacy settings) is an explicit Bool input of
each write operation.  isAvailable is the flag the StorageService
constructor computes once (storage.js lines 35-53).  JSON.stringify and
JSON.parse are host primitives too and are passed in as functions, parse
returning none when it would throw. -/

/-- The host localStorage contents. -/
def LocalStore := String → Option String

/-- localStorage.getItem. -/
def lsGet (ls : LocalStore) (k : String) : Option String := ls k

/-- localStorage.setItem (when it does not throw). -/
def lsSet (ls : LocalStore) (k v : String) : LocalStore :=
  fun x => if x = k then some v else ls x

/-- localStorage.removeItem. -/
def lsRemove (ls : LocalStore) (k : String) : LocalStore :=
  fun x => if x = k then none else ls x

/-- localStorage.clear (when it does not throw). -/
def lsClearAll : LocalStore := fun _ => none

/-- storage.js lines 61-72, StorageService.set: stringifies and stores;
returns false without touching the store when the service is unavailable
or the host throws. -/
def StorageService_set {α : Type} (isAvailable setThrows : Bool)
    (stringify : α → String) (ls : LocalStore) (k : String) (v : α) :
    Bool × LocalStore :=
  if isAvailable = false then (false, ls)
  else if setThrows then (false, ls)
  else (true, lsSet ls k (stringify v))

/-- storage.js lines 80-91, StorageService.get: the parsed stored value,
or the caller's default when the service is unavailable, the key is
absent, or JSON.parse throws. -/
def StorageService_get {α : Type} (isAvailable : Bool)
    (parse : String → Option α) (ls : LocalStore) (k : String)
    (defaultValue : α) : α :=
  if isAvailable = false then defaultValue
  else
    match lsGet ls k with
    | none => defaultValue
    | some item =>
      match parse item with
      | some v => v
      | none => defaultValue

/-- storage.js lines 99-102, StorageService.getRaw: the stored string, or
the default when the service is unavailable or the entry is absent or
empty (the JS || treats the empty string as falsy). -/
def StorageService_getRaw (isAvailable : Bool) (ls : LocalStore)
    (k : String) (defaultValue : String) : String :=
  if isAvailable = false then defaultValue
  else
    match lsGet ls k with
    | none => defaultValue
    | some s => if s = "" then defaultValue else s

/-- storage.js lines 110-120, StorageService.setRaw. -/
def StorageService_setRaw (isAvailable setThrows : Bool) (ls : LocalStore)
    (k v : String) : Bool × LocalStore :=
  if isAvailable = false then (false, ls)
  else if setThrows then (false, ls)
  else (true, lsSet ls k v)

/-- storage.js lines 127-137, StorageService.remove. -/
def StorageService_remove (isAvailable removeThrows : Bool)
    (ls : LocalStore) (k : String) : Bool × LocalStore :=
  if isAvailable = false then (false, ls)
  else if removeThrows then (false, ls)
  else (true, lsRemove ls k)

/-- storage.js lines 144-147, StorageService.has. -/
def StorageService_has (isAvailable : Bool) (ls : LocalStore)
    (k : String) : Bool :=
  if isAvailable = false then false
  else (lsGet ls k).isSome

/-- storage.js lines 153-163, StorageService.clear. -/
def StorageService_clear (isAvailable clearThrows : Bool)
    (ls : LocalStore) : Bool × LocalStore :=
  if isAvailable = false then (false, ls)
  else if clearThrows then (false, ls)
  else (true, lsClearAll)

/-- C8: every operation of the storage adapter is a total function (the
JS catches every host exception), and it degrades to a no-op when the
store is unavailable — writes, removes and clear return false and leave
the store untouched, reads return the caller's default, has returns
false — and likewise when the individual host operation throws or the
stored string does not parse. -/
theorem C8_storage_degrades :
    ∀ {α : Type} (stringify : α → String) (parse : String → Option α)
      (ls : LocalStore) (k v : String) (x : α) (d : α) (draw : String)
      (t : Bool),
      StorageService_set false t stringify ls k x = (false, ls) ∧
      StorageService_get false parse ls k d = d ∧
      StorageService_getRaw false ls k draw = draw ∧
      StorageService_setRaw false t ls k v = (false, ls) ∧
      StorageService_remove false t ls k = (false, ls) ∧
      StorageService_has false ls k = false ∧
      StorageService_clear false t ls = (false, ls) ∧
      StorageService_set true true stringify ls k x = (false, ls) ∧
      StorageService_setRaw true true ls k v = (false, ls) ∧
      StorageService_remove true true ls k = (false, ls) ∧
      StorageService_clear true true ls = (false, ls) ∧
      StorageService_get true (fun _ => (none : Option α)) ls k d = d := by
  intro α stringify parse ls k v x d draw t
  refine ⟨rfl, rfl, rfl, rfl, rfl, rfl, rfl, rfl, rfl, rfl, rfl, ?_⟩
  simp only [StorageService_get]
  rw [if_neg (by simp)]
  cases lsGet ls k <;> rfl

/-! ### The credential round trip (storage.js lines 185-200) -/

/-- storage.js line 20: StorageKeys.API_KEY. -/
def API_KEY_STORAGE_KEY : String := "vcet_groq_api_key"

/-- storage.js lines 194-200, setApiKey: a truthy key is stored raw, a
falsy one removes the entry. -/
def StorageService_setApiKey (isAvailable opThrows : Bool)
    (ls : LocalStore) (key : String) : LocalStore :=
  if key ≠ "" then
    (StorageService_setRaw isAvailable opThrows ls API_KEY_STORAGE_KEY key).2
  else
    (StorageService_remove isAvailable opThrows ls API_KEY_STORAGE_KEY).2

/-- storage.js lines 185-188, getApiKey: the raw entry, or null when it is
absent or empty. -/
def StorageService_getApiKey (isAvailable : Bool) (ls : LocalStore) :
    Option String :=
  let key := StorageService_getRaw isAvailable ls API_KEY_STORAGE_KEY ""
  if key = "" then none else some key

/-- C9: with the store available and the host operation succeeding, saving
any non-empty credential and reading it back yields the identical string,
and clearing it (saving the empty value, which removes the entry) and
reading yields the absent default null. -/
theorem C9_credential_roundtrip :
    ∀ (ls : LocalStore) (key : String),
      (key ≠ "" →
        StorageService_getApiKey true
          (StorageService_setApiKey true false ls key) = some key) ∧
      StorageService_getApiKey true
        (StorageService_setApiKey true false ls "") = none := by
  intro ls key
  constructor
  · intro hk
    have hstep : lsGet (lsSet ls API_KEY_STORAGE_KEY key)
        API_KEY_STORAGE_KEY = some key := by
      simp [lsGet, lsSet]
    simp [StorageService_setApiKey, hk, StorageService_setRaw,
      StorageService_getApiKey, StorageService_getRaw, hstep]
  · have hstep : lsGet (lsRemove ls API_KEY_STORAGE_KEY)
        API_KEY_STORAGE_KEY = none := by
      simp [lsGet, lsRemove]
    simp [StorageService_setApiKey, StorageService_remove,
      StorageService_getApiKey, StorageService_getRaw, hstep]

/-- Witness for C9_credential_roundtrip at a concrete store and key. -/
theorem C9_credential_roundtrip_witness :
    StorageService_getApiKey true
      (StorageService_setApiKey true false (fun _ => none) "gsk_test")
      = some "gsk_test" ∧
    StorageService_getApiKey true
      (StorageService_setApiKey true false (fun _ => none) "") = none := by
  exact ⟨(C9_credential_roundtrip (fun _ => none) "gsk_test").1 (by decide),
    (C9_credential_roundtrip (fun _ => none) "gsk_test").2⟩
